import Mathlib

/-!
Shallow embedding of the remote audio acquisition and normalization pipeline
of the TAU-Benchmark repository, covering:

* src/utils.py          (fetch adapters and the cropper)
* src/process_audio.py  (CSV orchestrator and its timestamp normalizer)
* src/process_audio_json.py (JSON/line-oriented orchestrator)
* src/sample_and_crop.py (the second windowing code path)

Python strings are modelled as Lean strings; Python ints as Lean Int;
the local filesystem as the list of file paths that exist; network and
subprocess effects as explicit oracles threaded through each function.
A value of type Option or PyOutcome models an operation that can raise:
a none or raises result stands for an uncaught Python exception.
-/

/-! ## Python string primitives used by the code -/

/-- Python str.strip: remove leading and trailing whitespace. -/
def pyStrip (s : String) : String :=
  String.mk (((s.data.dropWhile Char.isWhitespace).reverse.dropWhile
      Char.isWhitespace).reverse)

/-- Split a character list on a separator character, Python str.split
with a one-character separator: splitting the empty string gives one
empty component, and n separators give n+1 components. -/
def splitOnChar (sep : Char) : List Char → List (List Char)
  | [] => [[]]
  | c :: cs =>
    match splitOnChar sep cs with
    | [] => [[]]
    | h :: t => if c = sep then [] :: h :: t else (c :: h) :: t

/-- Python s.split(sep) for a one-character separator sep. -/
def pySplitStr (s : String) (sep : Char) : List String :=
  (splitOnChar sep s.data).map String.mk

/-- Accumulate the value of a decimal digit list; none on a non-digit. -/
def digitsValAux : List Char → Nat → Option Nat
  | [], acc => some acc
  | c :: cs, acc =>
    if c.isDigit then digitsValAux cs (acc * 10 + (c.toNat - 48)) else none

/-- Value of a nonempty decimal digit list; none if empty or non-digit. -/
def digitsVal (cs : List Char) : Option Nat :=
  if cs.isEmpty then none else digitsValAux cs 0

/-- Python int(s): optional surrounding whitespace, optional sign, decimal
digits.  Returns none when int() would raise ValueError.  Digit-group
underscores are not modelled (no input of the repository uses them). -/
def pyInt? (s : String) : Option Int :=
  match (pyStrip s).data with
  | [] => none
  | c :: cs =>
    if c = '-' then (digitsVal cs).map (fun n => -(n : Int))
    else if c = '+' then (digitsVal cs).map (fun n => (n : Int))
    else (digitsVal (c :: cs)).map (fun n => (n : Int))

/-- Whether the pattern list is an initial segment of the other list. -/
def listIsInit : List Char → List Char → Bool
  | [], _ => true
  | _ :: _, [] => false
  | a :: as, b :: bs => a = b && listIsInit as bs

/-- Whether the pattern occurs as a contiguous sublist. -/
def listHasSub (pat : List Char) : List Char → Bool
  | [] => pat.isEmpty
  | c :: cs => listIsInit pat (c :: cs) || listHasSub pat cs

/-- Python substring containment, the expression pat in s. -/
def pyIn (pat s : String) : Bool := listHasSub pat.data s.data

/-- Python link.split(amp)[0]: the prefix of the string before the first
ampersand character, used by both orchestrators on video-host links. -/
def splitAmpHead (s : String) : String :=
  String.mk (s.data.takeWhile (fun c => c ≠ '&'))

/-- Python format f-string 0>8d applied to a Nat: the decimal digits
left-padded with zeros to a minimum width of eight characters. -/
def pad8 (idx : Nat) : String :=
  let s := toString idx
  String.mk (List.replicate (8 - s.data.length) '0' ++ s.data)

/-! ## Timestamp normalizer

The function timestamp_to_ms appears identically in src/process_audio.py
(lines 26-40) and src/process_audio_json.py (lines 32-46).  The input is
modelled as Option String, where none covers both a missing value (None)
and a pandas NaN cell.  The result some (v, warned) carries the returned
millisecond value v together with whether the invalid-format warning was
printed to stderr; a none result models an uncaught ValueError raised by
int() on a component that is not an integer literal (the Python code maps
int over the components before checking their count, so such inputs crash
rather than reach the format warning). -/

def timestamp_to_ms (timestamp : Option String) : Option (Int × Bool) :=
  match timestamp with
  | none => some (-1, false)
  | some s =>
    if pyStrip s = "" then some (-1, false)
    else
      let comps := pySplitStr s ':'
      if comps.any (fun c => (pyInt? c).isNone) then none
      else
        let parts := comps.map (fun c => (pyInt? c).getD 0)
        if parts.length = 2 then
          some (((parts.getD 0 0) * 60 + parts.getD 1 0) * 1000, false)
        else if parts.length = 3 then
          some (((parts.getD 0 0) * 3600 + (parts.getD 1 0) * 60
            + parts.getD 2 0) * 1000, false)
        else
          some (-1, true)

/-! ## Source classifier

Both orchestrators choose an adapter by substring tests on the link.
src/process_audio_json.py (process_audio_download, lines 85-110) has a
Generic-HTTP catch-all (download_from_curl); src/process_audio.py
(process_audio_download, lines 78-94) instead prints an unsupported-link
message and returns None for links that match neither marker. -/

/-- The three fetch adapters of src/utils.py. -/
inductive Adapter
  | gdrive
  | yt
  | curl
deriving Repr, DecidableEq

/-- Adapter dispatch of src/process_audio_json.py process_audio_download:
drive marker first, else youtu marker, else the curl catch-all. -/
def classify_json (link : String) : Adapter :=
  if pyIn "drive" link then Adapter.gdrive
  else if pyIn "youtu" link then Adapter.yt
  else Adapter.curl

/-- Adapter dispatch of src/process_audio.py process_audio_download:
drive marker first, else youtu marker, else no adapter (the code prints
an unsupported-link message and returns None). -/
def classify_csv (link : String) : Option Adapter :=
  if pyIn "drive" link then some Adapter.gdrive
  else if pyIn "youtu" link then some Adapter.yt
  else none

/-! ## Fetch adapters (src/utils.py)

The filesystem is the list of file paths that exist.  Each adapter takes
an environment record of oracles for its external effects (the uuid hex
string, whether each network attempt succeeds, the jitter drawn before
each retry, whether ffmpeg is on the PATH, the curl exit status, ...) and
returns the adapter result together with the new filesystem and a count
of network attempts made. -/

/-- Local filesystem contents: the list of file paths that exist. -/
abbrev FS := List String

/-- The (path, fetched) pair every adapter in src/utils.py returns. -/
structure FetchResult where
  path : String
  fetched : Bool
deriving Repr, DecidableEq

/-- Python exception kinds relevant to this pipeline. -/
inductive PyError
  | missingTool
  | typeErr
  | valueErr
  | keyErr
deriving Repr, DecidableEq

/-- os.path.join for the two-component joins used by the adapters. -/
def joinPath (dir file : String) : String := dir ++ "/" ++ file

/-- Destination file name keyed by output id, optional audio index and
format.  Mirrors the common pattern of all three adapters: with a truthy
audio_idx (Python: a non-None, nonzero int) the name is id_idx.format,
otherwise id.format.  download_from_yt builds the extensionless name
first and appends the dot and format at its exists-check and returns;
the final string is the same. -/
def audioFileName (output_id : String) (audio_idx : Option Nat)
    (fmt : String) : String :=
  match audio_idx with
  | some i =>
    if i ≠ 0 then output_id ++ "_" ++ toString i ++ "." ++ fmt
    else output_id ++ "." ++ fmt
  | none => output_id ++ "." ++ fmt

/-- Output id actually used: the given one when truthy (Python: not
output_id), else the first eight characters of uuid4().hex uppercased. -/
def effectiveId (uuidHex : String) : Option String → String
  | none => String.mk ((uuidHex.data.take 8).map Char.toUpper)
  | some s =>
    if s = "" then String.mk ((uuidHex.data.take 8).map Char.toUpper)
    else s

/-- Environment for download_from_google_drive: the uuid oracle, whether
the gdown call of each attempt (0-based) succeeds, and the value drawn
by random.uniform(0, 1) before each retry. -/
structure GdriveEnv where
  uuidHex : String
  gdownOk : Nat → Bool
  jitter : Nat → ℚ

/-- Result of one download_from_google_drive call: the returned pair, the
filesystem afterwards, the number of gdown attempts made, and the sleep
durations (in seconds) performed between attempts, in order. -/
structure GdriveRun where
  ret : FetchResult
  fs : FS
  attempts : Nat
  sleeps : List ℚ

/-- Retry loop of download_from_google_drive (src/utils.py lines 35-52):
for attempt in range(5), try the download and break on success; on
failure return failure when attempt == 4, else sleep
3 ^ (attempt + 1) + random.uniform(0, 1) seconds and retry.  Returns the
successful attempt index (none on exhaustion), the number of attempts
made, and the sleeps performed.  The fuel argument (5 at the top call)
only bounds the recursion; the loop exit is the attempt == 4 test, as in
the source. -/
def gdriveRetryAux (ok : Nat → Bool) (jitter : Nat → ℚ) :
    Nat → Nat → Option Nat × Nat × List ℚ
  | _, 0 => (none, 0, [])
  | attempt, fuel + 1 =>
    if ok attempt then (some attempt, 1, [])
    else if attempt == 4 then (none, 1, [])
    else
      let r := gdriveRetryAux ok jitter (attempt + 1) fuel
      (r.1, r.2.1 + 1, ((3 : ℚ) ^ (attempt + 1) + jitter attempt) :: r.2.2)

/-- download_from_google_drive (src/utils.py lines 13-59).  The file id
extracted from the url feeds only the gdown call, which the gdownOk
oracle abstracts, so the url is otherwise inert here.  On success the
scratch file downloaded under tmp is decoded, resampled, exported to the
destination and removed, so the net filesystem effect is the one new
destination file.  All gdown exceptions are caught by the loop; the
function never raises. -/
def download_from_google_drive (env : GdriveEnv) (fs : FS) (_url : String)
    (fmt : String) (output_path : String) (output_id : Option String)
    (audio_idx : Option Nat) : GdriveRun :=
  let oid := effectiveId env.uuidHex output_id
  let output_file := joinPath output_path (audioFileName oid audio_idx fmt)
  if fs.contains output_file then
    ⟨⟨output_file, false⟩, fs, 0, []⟩
  else
    match gdriveRetryAux env.gdownOk env.jitter 0 5 with
    | (none, n, sl) => ⟨⟨"", false⟩, fs, n, sl⟩
    | (some _, n, sl) => ⟨⟨output_file, true⟩, output_file :: fs, n, sl⟩

/-- Environment for download_from_yt: the uuid oracle, the result of
shutil.which on ffmpeg, and whether the single yt_dlp download call
succeeds. -/
structure YtEnv where
  uuidHex : String
  ffmpegPath : Option String
  ytOk : Bool

/-- Result of one download_from_yt call.  The ret field is an Except
because the function raises RuntimeError when ffmpeg is absent. -/
structure YtRun where
  ret : Except PyError FetchResult
  fs : FS
  attempts : Nat

/-- download_from_yt (src/utils.py lines 62-111).  The ffmpeg check comes
before the id computation and the exists-check, exactly as in the
source, so a missing ffmpeg raises even when the destination already
exists.  The single yt_dlp attempt is wrapped in try/except: on failure
the function returns the empty path and false rather than raising. -/
def download_from_yt (env : YtEnv) (fs : FS) (_url : String)
    (fmt : String) (output_path : String) (output_id : Option String)
    (audio_idx : Option Nat) : YtRun :=
  match env.ffmpegPath with
  | none => ⟨Except.error PyError.missingTool, fs, 0⟩
  | some _ =>
    let oid := effectiveId env.uuidHex output_id
    let output_file := joinPath output_path (audioFileName oid audio_idx fmt)
    if fs.contains output_file then ⟨Except.ok ⟨output_file, false⟩, fs, 0⟩
    else if env.ytOk then ⟨Except.ok ⟨output_file, true⟩, output_file :: fs, 1⟩
    else ⟨Except.ok ⟨"", false⟩, fs, 1⟩

/-- Environment for download_from_curl: the uuid oracle, the exit status
of the curl subprocess, whether curl left a file at the destination, and
whether the os.system call itself raised a Python-level exception. -/
structure CurlEnv where
  uuidHex : String
  curlExit : Int
  curlCreates : Bool
  pyRaises : Bool

/-- Result of one download_from_curl call. -/
structure CurlRun where
  ret : FetchResult
  fs : FS
  attempts : Nat

/-- download_from_curl (src/utils.py lines 114-136).  The exit status
returned by os.system (env.curlExit) is discarded by the source, so a
failed transfer still returns (output_file, True); only a Python-level
exception from the os.system call itself reaches the except branch that
returns the empty path and False. -/
def download_from_curl (env : CurlEnv) (fs : FS) (_url : String)
    (fmt : String) (output_path : String) (output_id : Option String)
    (audio_idx : Option Nat) : CurlRun :=
  let oid := effectiveId env.uuidHex output_id
  let output_file := joinPath output_path (audioFileName oid audio_idx fmt)
  if fs.contains output_file then ⟨⟨output_file, false⟩, fs, 0⟩
  else if env.pyRaises then ⟨⟨"", false⟩, fs, 1⟩
  else
    ⟨⟨output_file, true⟩,
      if env.curlCreates then output_file :: fs else fs, 1⟩

/-! ## Windower/Cropper -/

/-- Result of a crop_audio call: the returned triple plus whether the
export (re-encode overwriting the source path) was performed. -/
structure CropRun where
  path : String
  start_ms : Int
  end_ms : Int
  exported : Bool
deriving Repr, DecidableEq

/-- crop_audio (src/utils.py lines 139-154).  audioLen is the decoded
length in milliseconds of the file at audio_path (pydub len(audio));
the decode happens before any other step, also on the need_crop = false
fast path.  Note the oversized-or-negative end is re-derived with max,
not min, of start_ms + max_length and the decoded length. -/
def crop_audio (audioLen : Int) (audio_path : String)
    (start_ms end_ms : Int) (_output_format : String)
    (max_length : Int) (need_crop : Bool) : CropRun :=
  let s := if start_ms < 0 then 0 else start_ms
  let e :=
    if end_ms < 0 ∨ end_ms - s > max_length then max (s + max_length) audioLen
    else end_ms
  if !need_crop then ⟨audio_path, s, e, false⟩
  else ⟨audio_path, s, e, true⟩

/-- Windowing of src/sample_and_crop.py (lines 75-90, verify_only
false): clamp a negative start to 0, cap an end beyond the decoded
length to the length, then re-derive an invalid or oversized window as
min of start + max and the decoded length. -/
def sample_crop_window (audioLen : Int) (start_ms end_ms max_length : Int) :
    Int × Int :=
  let s := if start_ms < 0 then 0 else start_ms
  let e := if end_ms > audioLen then audioLen else end_ms
  let e2 :=
    if e < 0 ∨ e - s > max_length then min (s + max_length) audioLen
    else e
  (s, e2)

/-! ## Rows and the JSON orchestrator (src/process_audio_json.py)

A row (one csv.DictReader record) is an association list from field name
to string value; lookups take the first binding, and an update prepends,
so the new binding shadows any older one (the semantics of a Python dict
assignment as far as lookups are concerned).  The orchestrator loop
(main, lines 119-167) is modelled one reference at a time; the adapter
invocation inside process_audio_download is abstracted by an oracle
giving the outcome (a returned pair, or a raised exception) of each
(adapter, url, audio index) call. -/

abbrev Row := List (String × String)

/-- Python row.get(k): first binding of the key, none when absent. -/
def rowGet (row : Row) (k : String) : Option String :=
  (row.find? (fun p => p.1 == k)).map (fun p => p.2)

/-- Python row[k] = v, as far as later lookups are concerned. -/
def rowSet (row : Row) (k v : String) : Row := (k, v) :: row

/-- Python truthiness test `not row.get(k)`: true on a missing key or an
empty string value. -/
def pyFalsyStr : Option String → Bool
  | none => true
  | some s => s == ""

/-- Outcome of a Python call: a normal return or a raised exception. -/
inductive PyOutcome (α : Type)
  | ok (a : α)
  | raises (e : PyError)
deriving Repr, DecidableEq

/-- One adapter invocation as requested by an orchestrator. -/
structure FetchCall where
  adapter : Adapter
  url : String
  audio_idx : Nat
deriving Repr, DecidableEq

/-- Environment of the JSON orchestrator: the outcome of each
(adapter, url, audio index) fetch invocation. -/
structure JsonEnv where
  fetch : Adapter → String → Nat → PyOutcome FetchResult

/-- process_audio_download of src/process_audio_json.py (lines 82-116):
dispatch on the markers of row[link_audio_idx] (KeyError on a missing
key is caught by the surrounding try, giving None), strip query
parameters after an ampersand for the video-host branch, and catch every
exception of the adapter call, returning None in that case.  Besides the
returned Option pair, the list of adapter invocations actually issued is
collected for the theorems. -/
def process_audio_download_json (env : JsonEnv) (row : Row)
    (audio_idx : Nat) : Option FetchResult × List FetchCall :=
  match rowGet row ("link_" ++ toString audio_idx) with
  | none => (none, [])
  | some link =>
    let ad := classify_json link
    let url := if ad = Adapter.yt then splitAmpHead link else link
    match env.fetch ad url audio_idx with
    | PyOutcome.ok r => (some r, [⟨ad, url, audio_idx⟩])
    | PyOutcome.raises _ => (none, [⟨ad, url, audio_idx⟩])

/-- One element of the audio list the orchestrator appends per
successfully processed reference. -/
structure AudioItem where
  link : String
  audio_path : String
  start_ms : Int
  end_ms : Int
deriving Repr, DecidableEq

/-- Body of the JSON orchestrator loop (main, lines 130-151) for one
audio index of one row: skip when row.get(link_idx) is falsy; otherwise
call process_audio_download(row, args) - the source omits the audio_idx
argument, so the helper always runs with its default index 1 and link_1;
convert the start and end timestamps (an uncaught ValueError there
aborts); then, because the helper result bound to audio_path is the
whole (path, fetched) pair and a pair is always truthy, a non-None
result is passed as the path argument of crop_audio, whose decode of a
non-path raises and aborts the row.  A None result is falsy, so that
reference is skipped. -/
def processRefStep (env : JsonEnv) (row : Row) (idx : Nat) :
    PyOutcome (List AudioItem) × List FetchCall :=
  if pyFalsyStr (rowGet row ("link_" ++ toString idx)) then
    (PyOutcome.ok [], [])
  else
    let fetched := process_audio_download_json env row 1
    match timestamp_to_ms (rowGet row ("start_" ++ toString idx)) with
    | none => (PyOutcome.raises PyError.valueErr, fetched.2)
    | some _ =>
      match timestamp_to_ms (rowGet row ("end_" ++ toString idx)) with
      | none => (PyOutcome.raises PyError.valueErr, fetched.2)
      | some _ =>
        match fetched.1 with
        | none => (PyOutcome.ok [], fetched.2)
        | some _ => (PyOutcome.raises PyError.typeErr, fetched.2)

/-- Fold of processRefStep over the audio indices of one row,
accumulating appended items and issued adapter invocations, aborting at
the first raised exception. -/
def processRefsAux (env : JsonEnv) (row : Row) :
    List Nat → PyOutcome (List AudioItem) × List FetchCall
  | [] => (PyOutcome.ok [], [])
  | i :: rest =>
    match processRefStep env row i with
    | (PyOutcome.raises e, cs) => (PyOutcome.raises e, cs)
    | (PyOutcome.ok items, cs) =>
      match processRefsAux env row rest with
      | (PyOutcome.raises e, cs2) => (PyOutcome.raises e, cs ++ cs2)
      | (PyOutcome.ok items2, cs2) => (PyOutcome.ok (items ++ items2), cs ++ cs2)

/-- Main loop of src/process_audio_json.py over the input rows, carrying
the running enumeration index: each row first gets
row[unique_id] = f-string 0>8d of its position, then its references are
processed for audio indices 1, 2, 3, and on success the enriched entry
(row plus audio item list) is appended to the output.  The source also
pops the link_i, start_i, end_i keys from the written record; no claim
concerns those fields, so the removal is not modelled. -/
def mainJsonAux (env : JsonEnv) :
    Nat → List Row → PyOutcome (List (Row × List AudioItem))
  | _, [] => PyOutcome.ok []
  | idx, row :: rest =>
    let row1 := rowSet row "unique_id" (pad8 idx)
    match processRefsAux env row1 [1, 2, 3] with
    | (PyOutcome.raises e, _) => PyOutcome.raises e
    | (PyOutcome.ok items, _) =>
      match mainJsonAux env (idx + 1) rest with
      | PyOutcome.raises e => PyOutcome.raises e
      | PyOutcome.ok out => PyOutcome.ok ((row1, items) :: out)

/-- main of src/process_audio_json.py (lines 119-167). -/
def main_json (env : JsonEnv) (rows : List Row) :
    PyOutcome (List (Row × List AudioItem)) :=
  mainJsonAux env 0 rows

/-! ## The CSV orchestrator (src/process_audio.py)

This orchestrator is wired to the adapter embeddings above: its
process_audio_download has no try/except, so adapter exceptions
propagate out of main. -/

/-- Environment of the CSV orchestrator: one uuid4().hex draw per row
position, the adapter environments, and the format and audio directory
arguments. -/
structure CsvEnv where
  uuid4hex : Nat → String
  gd : GdriveEnv
  yt : YtEnv
  fmt : String
  audio_dir : String

/-- One fresh id of main (line 105): str(uuid.uuid4().hex)[:8].upper(). -/
def csvFreshId (env : CsvEnv) (i : Nat) : String :=
  String.mk (((env.uuid4hex i).data.take 8).map Char.toUpper)

/-- Assignment of fresh unique ids to every row (main, line 105),
carrying the row position. -/
def csvAssignIds (env : CsvEnv) : Nat → List Row → List Row
  | _, [] => []
  | i, r :: rs =>
    rowSet r "unique_id" (csvFreshId env i) :: csvAssignIds env (i + 1) rs

/-- process_audio_download of src/process_audio.py (lines 76-94): drive
marker to the cloud-drive adapter, else youtu marker to the video-host
adapter (query parameters stripped), else print an unsupported-link
message and return None.  No try/except: a RuntimeError raised by
download_from_yt propagates.  The unique_id key is always present when
main calls this (assigned on line 105); a missing link key would raise
KeyError. -/
def process_audio_download_csv (env : CsvEnv) (fs : FS) (row : Row) :
    PyOutcome (Option FetchResult) × FS :=
  match rowGet row "link" with
  | none => (PyOutcome.raises PyError.keyErr, fs)
  | some link =>
    match classify_csv link with
    | some Adapter.gdrive =>
      let r := download_from_google_drive env.gd fs link env.fmt
        env.audio_dir (rowGet row "unique_id") none
      (PyOutcome.ok (some r.ret), r.fs)
    | some Adapter.yt =>
      let r := download_from_yt env.yt fs (splitAmpHead link) env.fmt
        env.audio_dir (rowGet row "unique_id") none
      match r.ret with
      | Except.error e => (PyOutcome.raises e, r.fs)
      | Except.ok fr => (PyOutcome.ok (some fr), r.fs)
    | _ => (PyOutcome.ok none, fs)

/-- Download phase of main (lines 111-114): df.progress_apply of
process_audio_download over the rows, storing each result in the
audio_path column; the first propagated exception aborts the phase. -/
def csvDownloadPhase (env : CsvEnv) (fs : FS) :
    List Row → PyOutcome (List (Row × Option FetchResult)) × FS
  | [] => (PyOutcome.ok [], fs)
  | row :: rest =>
    match process_audio_download_csv env fs row with
    | (PyOutcome.raises e, fs1) => (PyOutcome.raises e, fs1)
    | (PyOutcome.ok ap, fs1) =>
      match csvDownloadPhase env fs1 rest with
      | (PyOutcome.raises e, fs2) => (PyOutcome.raises e, fs2)
      | (PyOutcome.ok out, fs2) => (PyOutcome.ok ((row, ap) :: out), fs2)

/-- Timestamp phase of main (lines 116-120): apply timestamp_to_ms to
the start and end columns; an uncaught ValueError propagates. -/
def csvTimestampPhase :
    List (Row × Option FetchResult) →
    PyOutcome (List (Row × Option FetchResult × Int × Int))
  | [] => PyOutcome.ok []
  | (row, ap) :: rest =>
    match timestamp_to_ms (rowGet row "start") with
    | none => PyOutcome.raises PyError.valueErr
    | some s =>
      match timestamp_to_ms (rowGet row "end") with
      | none => PyOutcome.raises PyError.valueErr
      | some e =>
        match csvTimestampPhase rest with
        | PyOutcome.raises ex => PyOutcome.raises ex
        | PyOutcome.ok out => PyOutcome.ok ((row, ap, s.1, e.1) :: out)

/-- Crop phase of main (lines 123-133): crop_audio is applied to the
audio_path cell of each row, but that cell holds the whole
(path, fetched) pair returned by the adapter, or None - never a path -
so the pydub decode inside crop_audio raises on the first row and the
phase aborts. -/
def csvCropPhase :
    List (Row × Option FetchResult × Int × Int) →
    PyOutcome (List (Row × Option FetchResult × Int × Int))
  | [] => PyOutcome.ok []
  | _ :: _ => PyOutcome.raises PyError.typeErr

/-- main of src/process_audio.py (lines 97-142): assign fresh unique
ids, run the download phase, the timestamp phase, then the crop phase;
any propagated exception terminates main. -/
def main_csv (env : CsvEnv) (fs : FS) (rows : List Row) :
    PyOutcome (List (Row × Option FetchResult × Int × Int)) :=
  let rows1 := csvAssignIds env 0 rows
  match csvDownloadPhase env fs rows1 with
  | (PyOutcome.raises e, _) => PyOutcome.raises e
  | (PyOutcome.ok drows, _) =>
    match csvTimestampPhase drows with
    | PyOutcome.raises e => PyOutcome.raises e
    | PyOutcome.ok trows =>
      match csvCropPhase trows with
      | PyOutcome.raises e => PyOutcome.raises e
      | PyOutcome.ok out => PyOutcome.ok out

/-! ## Helper lemmas -/

/-- Looking up the key just set returns the value just set, whatever the
row held before. -/
theorem rowGet_rowSet_self (row : Row) (k v : String) :
    rowGet (rowSet row k v) k = some v := by
  unfold rowGet rowSet
  rw [List.find?_cons_of_pos]
  · rfl
  · simp

/-- Setting one key leaves lookups of a different key unchanged. -/
theorem rowGet_rowSet_ne (row : Row) (k k' v : String)
    (h : (k == k') = false) :
    rowGet (rowSet row k v) k' = rowGet row k' := by
  unfold rowGet rowSet
  rw [List.find?_cons_of_neg]
  simp [h]

/-- The retry loop makes at most fuel attempts. -/
theorem gdriveRetryAux_attempts_le (ok : Nat → Bool) (j : Nat → ℚ) :
    ∀ (fuel attempt : Nat), (gdriveRetryAux ok j attempt fuel).2.1 ≤ fuel := by
  intro fuel
  induction fuel with
  | zero => intro a; simp [gdriveRetryAux]
  | succ n ih =>
    intro a
    simp only [gdriveRetryAux]
    cases h : ok a with
    | true => simp
    | false =>
      simp only [Bool.false_eq_true, if_false]
      cases h4 : a == 4 with
      | true => simp
      | false =>
        simp only [Bool.false_eq_true, if_false]
        exact Nat.succ_le_succ (ih (a + 1))

/-! ## Claim theorems -/

/-- Claim C1: the claimed window invariant (0 ≤ start < end,
end − start ≤ maxLength, end ≤ sourceLength) fails on crop_audio, which
re-derives an invalid window with max instead of min: on a 60000 ms
source, requesting (0, unspecified) with max 15000 returns a 60000 ms
window; on a 10000 ms source the same request returns end 15000, beyond
the source; and a request with end before start is returned as is,
violating start < end.  The sibling windower in sample_and_crop.py
clamps with min as the spec intends, confirming the slip. -/
theorem C1_crop_window_invariant_fails :
    ((crop_audio 60000 "a.mp3" 0 (-1) "mp3" 15000 true).end_ms
        - (crop_audio 60000 "a.mp3" 0 (-1) "mp3" 15000 true).start_ms = 60000
      ∧ (15000 : Int) < 60000)
    ∧ ((crop_audio 10000 "b.mp3" 0 (-1) "mp3" 15000 true).end_ms = 15000
      ∧ (10000 : Int) < 15000)
    ∧ ((crop_audio 20000 "c.mp3" 5000 3000 "mp3" 15000 true).start_ms = 5000
      ∧ (crop_audio 20000 "c.mp3" 5000 3000 "mp3" 15000 true).end_ms = 3000)
    ∧ sample_crop_window 10000 0 (-1) 15000 = (0, 10000) := by decide

/-- Claim C9 counterexample: with need_crop = false the bounds are not
returned unchanged: the clamps run before the fast-path return, so a
negative requested start comes back as 0. -/
theorem C9_no_crop_bounds_changed :
    crop_audio 20000 "a.mp3" (-5) 3 "mp3" 15000 false
      = ⟨"a.mp3", 0, 3, false⟩ ∧ (0 : Int) ≠ -5 := by decide

/-- Claim C9 as amended: with need_crop = false, crop_audio performs no
export (the file at the given path is not re-encoded) and returns the
given path with the clamped bounds, which equal the given bounds
whenever the window was already valid (start ≥ 0, end ≥ 0,
end − start ≤ maxLength). -/
theorem C9_no_crop_fast_path (audioLen : Int) (path : String)
    (s e : Int) (fmt : String) (maxLen : Int) :
    (crop_audio audioLen path s e fmt maxLen false).exported = false
    ∧ (crop_audio audioLen path s e fmt maxLen false).path = path
    ∧ (0 ≤ s → 0 ≤ e → e - s ≤ maxLen →
        (crop_audio audioLen path s e fmt maxLen false).start_ms = s
        ∧ (crop_audio audioLen path s e fmt maxLen false).end_ms = e) := by
  refine ⟨by simp [crop_audio], by simp [crop_audio], ?_⟩
  intro hs he hle
  have h1 : ¬(s < 0) := not_lt.mpr hs
  have h2a : ¬(e < 0) := not_lt.mpr he
  have h2b : ¬(e - s > maxLen) := not_lt.mpr hle
  constructor <;> simp [crop_audio, h1, h2a, h2b]

/-- Claim C9 witness: a concrete valid window passes through the
fast path unchanged and unexported. -/
theorem C9_no_crop_fast_path_witness :
    (crop_audio 20000 "a.mp3" 1000 4000 "mp3" 15000 false).exported = false
    ∧ (crop_audio 20000 "a.mp3" 1000 4000 "mp3" 15000 false).start_ms = 1000
    ∧ (crop_audio 20000 "a.mp3" 1000 4000 "mp3" 15000 false).end_ms = 4000 := by
  have h := C9_no_crop_fast_path 20000 "a.mp3" 1000 4000 "mp3" 15000
  exact ⟨h.1, (h.2.2 (by norm_num) (by norm_num) (by norm_num)).1,
    (h.2.2 (by norm_num) (by norm_num) (by norm_num)).2⟩

/-- Claim C4 counterexample: a string of four colon-separated components
that are not integer literals crashes timestamp_to_ms with an uncaught
ValueError (the code maps int over the components before checking their
count), rather than failing with the reported format error. -/
theorem C4_timestamp_crash_on_nonint :
    timestamp_to_ms (some ":::") = none
    ∧ (pySplitStr ":::" ':').length = 4 := by decide

/-- Claim C4 as amended: the normalizer returns 3723000 for 01:02:03,
125000 for 02:05 and -1 for absent or blank input; and every nonblank
string whose colon-separated components all parse as integers but whose
component count is neither 2 nor 3 is reported (stderr warning, the
Boolean in the result) and mapped to the unspecified sentinel -1, which
the caller then treats as an unspecified bound.  Strings with
non-integer components instead crash (the counterexample). -/
theorem C4_timestamp_normalizer :
    timestamp_to_ms (some "01:02:03") = some (3723000, false)
    ∧ timestamp_to_ms (some "02:05") = some (125000, false)
    ∧ timestamp_to_ms none = some (-1, false)
    ∧ timestamp_to_ms (some "") = some (-1, false)
    ∧ ∀ s : String, pyStrip s ≠ "" →
        (∀ c ∈ pySplitStr s ':', (pyInt? c).isSome = true) →
        (pySplitStr s ':').length ≠ 2 →
        (pySplitStr s ':').length ≠ 3 →
        timestamp_to_ms (some s) = some (-1, true) := by
  refine ⟨by decide, by decide, by decide, by decide, ?_⟩
  intro s hs hall h2 h3
  have hany : ((pySplitStr s ':').any fun c => (pyInt? c).isNone) = false := by
    rw [Bool.eq_false_iff]
    intro htrue
    rw [List.any_eq_true] at htrue
    obtain ⟨c, hc, hcn⟩ := htrue
    have hsome := hall c hc
    rw [Option.isNone_iff_eq_none] at hcn
    rw [hcn] at hsome
    simp at hsome
  simp only [timestamp_to_ms, hany]
  rw [if_neg hs]
  simp only [Bool.false_eq_true, if_false, List.length_map]
  rw [if_neg h2, if_neg h3]

/-- Claim C4 witness: the amended universal applied at 1:2:3:4. -/
theorem C4_timestamp_normalizer_witness :
    timestamp_to_ms (some "1:2:3:4") = some (-1, true) :=
  C4_timestamp_normalizer.2.2.2.2 "1:2:3:4" (by decide) (by decide)
    (by decide) (by decide)

/-- Claim C6 counterexample: the repository has two source dispatchers;
the one in process_audio.py has no Generic-HTTP catch-all: a URL with
neither marker selects no adapter at all there (the code reports the
link as unsupported and returns None), while the process_audio_json.py
dispatcher does fall through to the curl adapter. -/
theorem C6_csv_no_catch_all :
    classify_csv "http://example.com/a.mp3" = none
    ∧ classify_csv "http://example.com/a.mp3" ≠ some Adapter.curl
    ∧ classify_json "http://example.com/a.mp3" = Adapter.curl := by decide

/-- Claim C6 as amended: in both dispatchers a URL containing the drive
marker always selects the Cloud-Drive adapter regardless of any other
substring, and otherwise a URL containing the youtu marker selects the
Video-Host adapter; a URL with neither marker falls through to the
Generic-HTTP adapter in the JSON orchestrator but selects no adapter in
the CSV orchestrator. -/
theorem C6_classifier_precedence (url : String) :
    (pyIn "drive" url = true →
      classify_json url = Adapter.gdrive
      ∧ classify_csv url = some Adapter.gdrive)
    ∧ (pyIn "drive" url = false → pyIn "youtu" url = true →
      classify_json url = Adapter.yt ∧ classify_csv url = some Adapter.yt)
    ∧ (pyIn "drive" url = false → pyIn "youtu" url = false →
      classify_json url = Adapter.curl ∧ classify_csv url = none) := by
  refine ⟨fun h => ?_, fun h1 h2 => ?_, fun h1 h2 => ?_⟩ <;>
    constructor <;> simp [classify_json, classify_csv, *]

/-- Claim C6 witness: a URL containing both markers selects Cloud-Drive,
and a video-host URL selects Video-Host in both dispatchers. -/
theorem C6_classifier_precedence_witness :
    classify_json "https://drive.google.com/youtu" = Adapter.gdrive
    ∧ classify_csv "https://youtu.be/x" = some Adapter.yt := by
  refine ⟨((C6_classifier_precedence "https://drive.google.com/youtu").1
    (by decide)).1, ?_⟩
  exact ((C6_classifier_precedence "https://youtu.be/x").2.1 (by decide)
    (by decide)).2

/-- Concrete curl environment of the C8 counterexample: the transfer
exits with curl status 6 (could not resolve host), leaves no file at the
destination, and os.system raises no Python exception. -/
def curlFailEnv : CurlEnv := ⟨"0123456789abcdef0123456789abcdef", 6, false, false⟩

/-- Claim C8 counterexample: a failed transfer does not yield a failure
result.  download_from_curl discards the os.system exit status, so with
exit status 6 and no file created it still returns the destination path
with fetched = true - a success value claiming a fetched file. -/
theorem C8_curl_ignores_exit_status :
    (download_from_curl curlFailEnv [] "http://bad.example.com/x" "mp3"
      "data/audio" (some "ID000001") (some 1)).ret
      = ⟨"data/audio/ID000001_1.mp3", true⟩
    ∧ curlFailEnv.curlExit ≠ 0
    ∧ (download_from_curl curlFailEnv [] "http://bad.example.com/x" "mp3"
      "data/audio" (some "ID000001") (some 1)).fs = [] := by decide

/-- Claim C8 as amended: the Generic-HTTP adapter makes exactly one
transfer attempt when the destination is absent, but the exit status of
that transfer is ignored: the call returns the destination path with
fetched = true whether or not the transfer succeeded, and only a
Python-level exception from the os.system call itself produces the
failure result of an empty path with fetched = false. -/
theorem C8_curl_single_attempt (env : CurlEnv) (fs : FS)
    (url fmt dir : String) (oid : Option String) (aidx : Option Nat)
    (hne : joinPath dir (audioFileName (effectiveId env.uuidHex oid) aidx fmt)
      ∉ fs) :
    (download_from_curl env fs url fmt dir oid aidx).attempts = 1
    ∧ (env.pyRaises = false →
        (download_from_curl env fs url fmt dir oid aidx).ret
          = ⟨joinPath dir
              (audioFileName (effectiveId env.uuidHex oid) aidx fmt), true⟩)
    ∧ (env.pyRaises = true →
        (download_from_curl env fs url fmt dir oid aidx).ret = ⟨"", false⟩) := by
  refine ⟨?_, ?_, ?_⟩
  · cases hp : env.pyRaises <;> simp [download_from_curl, hne, hp]
  · intro hp; simp [download_from_curl, hne, hp]
  · intro hp; simp [download_from_curl, hne, hp]

/-- Claim C8 witness: a concrete fresh-destination call makes one
attempt and returns the destination path with fetched = true. -/
theorem C8_curl_single_attempt_witness :
    (download_from_curl ⟨"ab", 0, true, false⟩ [] "http://e.com/a" "mp3" "d"
      (some "Y") none).attempts = 1
    ∧ (download_from_curl ⟨"ab", 0, true, false⟩ [] "http://e.com/a" "mp3" "d"
      (some "Y") none).ret
      = ⟨joinPath "d" (audioFileName (effectiveId "ab" (some "Y")) none "mp3"),
         true⟩ := by
  have h := C8_curl_single_attempt ⟨"ab", 0, true, false⟩ [] "http://e.com/a"
    "mp3" "d" (some "Y") none (by decide)
  exact ⟨h.1, h.2.1 rfl⟩

/-- Claim C3: every adapter checks the deterministic destination path
first and, when it already exists, returns it with fetched = false
before any network action (zero attempts) and with the filesystem
untouched; consequently, when a first call actually fetched the file
(for the video-host adapter, with ffmpeg present; for the generic-http
adapter, when the transfer both raised nothing and created the file), an
identical second call returns the same path with fetched = false and
changes nothing. -/
theorem C3_fetch_idempotent :
    (∀ (env : GdriveEnv) (fs : FS) (url fmt dir : String)
        (oid : Option String) (aidx : Option Nat),
      (joinPath dir (audioFileName (effectiveId env.uuidHex oid) aidx fmt)
          ∈ fs →
        download_from_google_drive env fs url fmt dir oid aidx
          = ⟨⟨joinPath dir
                (audioFileName (effectiveId env.uuidHex oid) aidx fmt),
              false⟩, fs, 0, []⟩)
      ∧ ((download_from_google_drive env fs url fmt dir oid aidx).ret.fetched
            = true →
          download_from_google_drive env
              (download_from_google_drive env fs url fmt dir oid aidx).fs
              url fmt dir oid aidx
            = ⟨⟨joinPath dir
                  (audioFileName (effectiveId env.uuidHex oid) aidx fmt),
                false⟩,
              (download_from_google_drive env fs url fmt dir oid aidx).fs,
              0, []⟩))
    ∧ (∀ (env : YtEnv) (fs : FS) (url fmt dir : String)
        (oid : Option String) (aidx : Option Nat) (p : String),
      env.ffmpegPath = some p →
      (joinPath dir (audioFileName (effectiveId env.uuidHex oid) aidx fmt)
          ∈ fs →
        download_from_yt env fs url fmt dir oid aidx
          = ⟨Except.ok ⟨joinPath dir
                (audioFileName (effectiveId env.uuidHex oid) aidx fmt),
              false⟩, fs, 0⟩)
      ∧ ((download_from_yt env fs url fmt dir oid aidx).ret
            = Except.ok ⟨joinPath dir
                (audioFileName (effectiveId env.uuidHex oid) aidx fmt),
              true⟩ →
          download_from_yt env
              (download_from_yt env fs url fmt dir oid aidx).fs
              url fmt dir oid aidx
            = ⟨Except.ok ⟨joinPath dir
                  (audioFileName (effectiveId env.uuidHex oid) aidx fmt),
                false⟩,
              (download_from_yt env fs url fmt dir oid aidx).fs, 0⟩))
    ∧ (∀ (env : CurlEnv) (fs : FS) (url fmt dir : String)
        (oid : Option String) (aidx : Option Nat),
      (joinPath dir (audioFileName (effectiveId env.uuidHex oid) aidx fmt)
          ∈ fs →
        download_from_curl env fs url fmt dir oid aidx
          = ⟨⟨joinPath dir
                (audioFileName (effectiveId env.uuidHex oid) aidx fmt),
              false⟩, fs, 0⟩)
      ∧ (env.curlCreates = true →
          (download_from_curl env fs url fmt dir oid aidx).ret.fetched
            = true →
          download_from_curl env
              (download_from_curl env fs url fmt dir oid aidx).fs
              url fmt dir oid aidx
            = ⟨⟨joinPath dir
                  (audioFileName (effectiveId env.uuidHex oid) aidx fmt),
                false⟩,
              (download_from_curl env fs url fmt dir oid aidx).fs, 0⟩)) := by
  refine ⟨?_, ?_, ?_⟩
  · intro env fs url fmt dir oid aidx
    constructor
    · intro hmem
      simp [download_from_google_drive, hmem]
    · intro hf
      by_cases hmem :
        joinPath dir (audioFileName (effectiveId env.uuidHex oid) aidx fmt)
          ∈ fs
      · exfalso
        simp [download_from_google_drive, hmem] at hf
      · rcases hres : gdriveRetryAux env.gdownOk env.jitter 0 5 with ⟨o, n, sl⟩
        cases o with
        | none =>
          exfalso
          simp [download_from_google_drive, hmem, hres] at hf
        | some a =>
          have hfs1 :
              (download_from_google_drive env fs url fmt dir oid aidx).fs
                = joinPath dir
                    (audioFileName (effectiveId env.uuidHex oid) aidx fmt)
                  :: fs := by
            simp [download_from_google_drive, hmem, hres]
          rw [hfs1]
          simp [download_from_google_drive]
  · intro env fs url fmt dir oid aidx p hff
    constructor
    · intro hmem
      simp [download_from_yt, hff, hmem]
    · intro hf
      by_cases hmem :
        joinPath dir (audioFileName (effectiveId env.uuidHex oid) aidx fmt)
          ∈ fs
      · exfalso
        simp [download_from_yt, hff, hmem] at hf
      · cases hok : env.ytOk with
        | false =>
          exfalso
          simp [download_from_yt, hff, hmem, hok] at hf
        | true =>
          have hfs1 : (download_from_yt env fs url fmt dir oid aidx).fs
              = joinPath dir
                  (audioFileName (effectiveId env.uuidHex oid) aidx fmt)
                :: fs := by
            simp [download_from_yt, hff, hmem, hok]
          rw [hfs1]
          simp [download_from_yt, hff]
  · intro env fs url fmt dir oid aidx
    constructor
    · intro hmem
      simp [download_from_curl, hmem]
    · intro hcr hf
      by_cases hmem :
        joinPath dir (audioFileName (effectiveId env.uuidHex oid) aidx fmt)
          ∈ fs
      · exfalso
        simp [download_from_curl, hmem] at hf
      · cases hp : env.pyRaises with
        | true =>
          exfalso
          simp [download_from_curl, hmem, hp] at hf
        | false =>
          have hfs1 : (download_from_curl env fs url fmt dir oid aidx).fs
              = joinPath dir
                  (audioFileName (effectiveId env.uuidHex oid) aidx fmt)
                :: fs := by
            simp [download_from_curl, hmem, hp, hcr]
          rw [hfs1]
          simp [download_from_curl]

/-- Claim C3 witness: concrete back-to-back calls of each adapter with a
succeeding first transfer; the second call skips. -/
theorem C3_fetch_idempotent_witness :
    download_from_google_drive ⟨"ab", fun _ => true, fun _ => 0⟩
        ((download_from_google_drive ⟨"ab", fun _ => true, fun _ => 0⟩ []
          "u" "mp3" "d" (some "X") (some 1)).fs) "u" "mp3" "d" (some "X")
        (some 1)
      = ⟨⟨joinPath "d" (audioFileName (effectiveId "ab" (some "X")) (some 1)
            "mp3"), false⟩,
         (download_from_google_drive ⟨"ab", fun _ => true, fun _ => 0⟩ []
          "u" "mp3" "d" (some "X") (some 1)).fs, 0, []⟩
    ∧ download_from_yt ⟨"ab", some "/usr/bin/ffmpeg", true⟩
        ((download_from_yt ⟨"ab", some "/usr/bin/ffmpeg", true⟩ []
          "u" "mp3" "d" (some "X") none).fs) "u" "mp3" "d" (some "X") none
      = ⟨Except.ok ⟨joinPath "d" (audioFileName (effectiveId "ab" (some "X"))
            none "mp3"), false⟩,
         (download_from_yt ⟨"ab", some "/usr/bin/ffmpeg", true⟩ []
          "u" "mp3" "d" (some "X") none).fs, 0⟩
    ∧ download_from_curl ⟨"ab", 0, true, false⟩
        ((download_from_curl ⟨"ab", 0, true, false⟩ []
          "u" "mp3" "d" (some "X") none).fs) "u" "mp3" "d" (some "X") none
      = ⟨⟨joinPath "d" (audioFileName (effectiveId "ab" (some "X")) none
            "mp3"), false⟩,
         (download_from_curl ⟨"ab", 0, true, false⟩ []
          "u" "mp3" "d" (some "X") none).fs, 0⟩ := by
  refine ⟨?_, ?_, ?_⟩
  · exact (C3_fetch_idempotent.1 ⟨"ab", fun _ => true, fun _ => 0⟩ []
      "u" "mp3" "d" (some "X") (some 1)).2 (by decide)
  · exact ((C3_fetch_idempotent.2.1 ⟨"ab", some "/usr/bin/ffmpeg", true⟩ []
      "u" "mp3" "d" (some "X") none "/usr/bin/ffmpeg" rfl)).2 rfl
  · exact ((C3_fetch_idempotent.2.2 ⟨"ab", 0, true, false⟩ []
      "u" "mp3" "d" (some "X") none)).2 rfl (by decide)

/-- Claim C7: the cloud-drive adapter makes at most 5 download attempts;
when the destination is absent and every attempt fails it makes exactly
5, sleeps 3 ^ (attempt + 1) seconds plus the drawn jitter before each of
the 4 retries (so each sleep lies in the interval from 3 ^ (attempt + 1)
inclusive to 3 ^ (attempt + 1) + 1 exclusive when the jitter lies in the
unit interval), and returns the empty path with fetched = false as a
normal value rather than raising. -/
theorem C7_gdrive_retry_policy :
    (∀ (env : GdriveEnv) (fs : FS) (url fmt dir : String)
        (oid : Option String) (aidx : Option Nat),
      (download_from_google_drive env fs url fmt dir oid aidx).attempts ≤ 5)
    ∧ (∀ (env : GdriveEnv) (fs : FS) (url fmt dir : String)
        (oid : Option String) (aidx : Option Nat),
      (∀ i, env.gdownOk i = false) →
      joinPath dir (audioFileName (effectiveId env.uuidHex oid) aidx fmt)
        ∉ fs →
      (download_from_google_drive env fs url fmt dir oid aidx).ret
        = ⟨"", false⟩
      ∧ (download_from_google_drive env fs url fmt dir oid aidx).attempts = 5
      ∧ (download_from_google_drive env fs url fmt dir oid aidx).sleeps
          = [3 ^ 1 + env.jitter 0, 3 ^ 2 + env.jitter 1,
             3 ^ 3 + env.jitter 2, 3 ^ 4 + env.jitter 3]
      ∧ ((∀ i, 0 ≤ env.jitter i ∧ env.jitter i < 1) →
          ∀ k, k < 4 →
            3 ^ (k + 1)
              ≤ ((download_from_google_drive env fs url fmt dir oid
                  aidx).sleeps.getD k 0)
            ∧ ((download_from_google_drive env fs url fmt dir oid
                aidx).sleeps.getD k 0) < 3 ^ (k + 1) + 1)) := by
  constructor
  · intro env fs url fmt dir oid aidx
    by_cases hmem :
      joinPath dir (audioFileName (effectiveId env.uuidHex oid) aidx fmt)
        ∈ fs
    · simp [download_from_google_drive, hmem]
    · rcases hres : gdriveRetryAux env.gdownOk env.jitter 0 5 with ⟨o, n, sl⟩
      have hn : n ≤ 5 := by
        have h := gdriveRetryAux_attempts_le env.gdownOk env.jitter 5 0
        rw [hres] at h
        exact h
      cases o <;> simp [download_from_google_drive, hmem, hres, hn]
  · intro env fs url fmt dir oid aidx hfail hmem
    have hloop : gdriveRetryAux env.gdownOk env.jitter 0 5
        = (none, 5, [3 ^ 1 + env.jitter 0, 3 ^ 2 + env.jitter 1,
            3 ^ 3 + env.jitter 2, 3 ^ 4 + env.jitter 3]) := by
      simp [gdriveRetryAux, hfail]
    refine ⟨by simp [download_from_google_drive, hmem, hloop],
      by simp [download_from_google_drive, hmem, hloop], ?_, ?_⟩
    · simp [download_from_google_drive, hmem, hloop]
    · intro hj k hk
      have hsl : (download_from_google_drive env fs url fmt dir oid
          aidx).sleeps
          = [3 ^ 1 + env.jitter 0, 3 ^ 2 + env.jitter 1,
             3 ^ 3 + env.jitter 2, 3 ^ 4 + env.jitter 3] := by
        simp [download_from_google_drive, hmem, hloop]
      rw [hsl]
      have hj0 := hj 0
      have hj1 := hj 1
      have hj2 := hj 2
      have hj3 := hj 3
      interval_cases k <;> constructor <;>
        simp only [List.getD, List.get?, Option.getD] <;> norm_num <;>
        linarith [hj0.1, hj0.2, hj1.1, hj1.2, hj2.1, hj2.2, hj3.1, hj3.2]

/-- Claim C7 witness: with every attempt failing and jitter one half,
the adapter returns failure after exactly 5 attempts, and the first
sleep is at least 3 seconds. -/
theorem C7_gdrive_retry_policy_witness :
    (download_from_google_drive ⟨"ab", fun _ => false, fun _ => (1 : ℚ) / 2⟩
      [] "u" "mp3" "d" (some "X") none).ret = ⟨"", false⟩
    ∧ (download_from_google_drive ⟨"ab", fun _ => false, fun _ => (1 : ℚ) / 2⟩
      [] "u" "mp3" "d" (some "X") none).attempts = 5
    ∧ 3 ^ (0 + 1)
      ≤ (download_from_google_drive ⟨"ab", fun _ => false, fun _ => (1 : ℚ) / 2⟩
        [] "u" "mp3" "d" (some "X") none).sleeps.getD 0 0 := by
  have h := C7_gdrive_retry_policy.2 ⟨"ab", fun _ => false, fun _ => (1 : ℚ) / 2⟩
    [] "u" "mp3" "d" (some "X") none (fun i => rfl) (by decide)
  exact ⟨h.1, h.2.1, (h.2.2.2 (fun i => by norm_num) 0 (by norm_num)).1⟩

/-- Claim C5 counterexample: a missing external transcoder terminates
the whole CSV orchestrator run.  download_from_yt raises RuntimeError
when ffmpeg is absent, process_audio_download of src/process_audio.py
has no try/except, and main propagates the exception, so a one-entry run
with a video-host link aborts instead of continuing with an empty asset
list. -/
theorem C5_missing_tool_aborts_run :
    (download_from_yt
        (YtEnv.mk "" none false) [] "https://youtu.be/abc" "mp3"
        "data/audio" (some "01234567") none).ret
      = Except.error PyError.missingTool
    ∧ main_csv
        ⟨fun _ => "0123456789abcdef0123456789abcdef",
         ⟨"", fun _ => false, fun _ => 0⟩, YtEnv.mk "" none false,
         "mp3", "data/audio"⟩
        [] [[("link", "https://youtu.be/abc")]]
      = PyOutcome.raises PyError.missingTool := by
  constructor
  · rfl
  · decide

/-- Claim C5 as amended: in the JSON orchestrator every exception raised
by an adapter invocation inside the fetch helper is caught: the helper
returns None together with the single issued call, the reference is
omitted, and the per-reference step completes normally with no item
appended (given parseable timestamps); but in the CSV orchestrator a
MissingToolError raised by the video-host adapter propagates uncaught
and terminates the whole run. -/
theorem C5_error_containment :
    (∀ (env : JsonEnv) (row : Row) (i : Nat) (link : String) (e : PyError),
      rowGet row ("link_" ++ toString i) = some link →
      env.fetch (classify_json link)
          (if classify_json link = Adapter.yt then splitAmpHead link
           else link) i
        = PyOutcome.raises e →
      process_audio_download_json env row i
        = (none, [⟨classify_json link,
            (if classify_json link = Adapter.yt then splitAmpHead link
             else link), i⟩]))
    ∧ (∀ (env : JsonEnv) (row : Row) (idx : Nat),
      (∀ link1, rowGet row ("link_" ++ toString 1) = some link1 →
        ∃ e, env.fetch (classify_json link1)
          (if classify_json link1 = Adapter.yt then splitAmpHead link1
           else link1) 1
          = PyOutcome.raises e) →
      (timestamp_to_ms (rowGet row ("start_" ++ toString idx))).isSome
        = true →
      (timestamp_to_ms (rowGet row ("end_" ++ toString idx))).isSome
        = true →
      (processRefStep env row idx).1 = PyOutcome.ok [])
    ∧ (∀ (env : CsvEnv) (fs : FS) (row : Row) (rest : List Row)
        (link : String),
      rowGet row "link" = some link →
      pyIn "drive" link = false →
      pyIn "youtu" link = true →
      env.yt.ffmpegPath = none →
      main_csv env fs (row :: rest) = PyOutcome.raises PyError.missingTool)
    := by
  refine ⟨?_, ?_, ?_⟩
  · intro env row i link e hlink hraise
    simp [process_audio_download_json, hlink, hraise]
  · intro env row idx hfe hts1 hts2
    unfold processRefStep
    cases hfls : pyFalsyStr (rowGet row ("link_" ++ toString idx)) with
    | true => simp [hfls]
    | false =>
      simp only [hfls, Bool.false_eq_true, if_false]
      have hnone : (process_audio_download_json env row 1).1 = none := by
        unfold process_audio_download_json
        cases hro : rowGet row ("link_" ++ toString 1) with
        | none => rfl
        | some link1 =>
          obtain ⟨e, he⟩ := hfe link1 hro
          simp [he]
      obtain ⟨v1, hv1⟩ := Option.isSome_iff_exists.mp hts1
      obtain ⟨v2, hv2⟩ := Option.isSome_iff_exists.mp hts2
      rw [hv1, hv2]
      rcases hpd : process_audio_download_json env row 1 with ⟨ap, cs⟩
      rw [hpd] at hnone
      simp only at hnone
      subst hnone
      rfl
  · intro env fs row rest link hlink hd hy hff
    have hcls : classify_csv link = some Adapter.yt := by
      simp [classify_csv, hd, hy]
    have hlink1 :
        rowGet (rowSet row "unique_id" (csvFreshId env 0)) "link"
          = some link := by
      rw [rowGet_rowSet_ne]
      · exact hlink
      · decide
    have hpd : process_audio_download_csv env fs
        (rowSet row "unique_id" (csvFreshId env 0))
        = (PyOutcome.raises PyError.missingTool, fs) := by
      simp [process_audio_download_csv, hlink1, hcls, download_from_yt, hff]
    simp [main_csv, csvAssignIds, csvDownloadPhase, hpd]

/-- Claim C5 witness: a reference whose adapter invocation raises is
omitted while the JSON step completes, and a concrete CSV run with a
video-host link and no ffmpeg aborts with the missing-tool error. -/
theorem C5_error_containment_witness :
    (processRefStep ⟨fun _ _ _ => PyOutcome.raises PyError.missingTool⟩
      [("link_1", "https://youtu.be/a"), ("start_1", "00:00:01"),
       ("end_1", "00:00:02")] 1).1 = PyOutcome.ok []
    ∧ main_csv
        ⟨fun _ => "0123456789abcdef0123456789abcdef",
         ⟨"", fun _ => false, fun _ => 0⟩, YtEnv.mk "" none false,
         "mp3", "data/audio"⟩
        [] [[("link", "https://youtu.be/xyz")], [("link", "u2")]]
      = PyOutcome.raises PyError.missingTool := by
  constructor
  · exact C5_error_containment.2.1
      ⟨fun _ _ _ => PyOutcome.raises PyError.missingTool⟩
      [("link_1", "https://youtu.be/a"), ("start_1", "00:00:01"),
       ("end_1", "00:00:02")] 1
      (fun link1 _ => ⟨PyError.missingTool, rfl⟩) (by decide) (by decide)
  · exact C5_error_containment.2.2
      ⟨fun _ => "0123456789abcdef0123456789abcdef",
       ⟨"", fun _ => false, fun _ => 0⟩, YtEnv.mk "" none false,
       "mp3", "data/audio"⟩
      [] [("link", "https://youtu.be/xyz")] [[("link", "u2")]]
      "https://youtu.be/xyz" rfl (by decide) (by decide) rfl

/-- Input entry of the C2 evaluation: three cloud-drive references with
parseable timestamps; fetching the second link (BBB) would fail after
exhausting retries while the first and third succeed. -/
def c2Row : Row :=
  [("link_1", "https://drive.google.com/file/d/AAA/view"),
   ("link_2", "https://drive.google.com/file/d/BBB/view"),
   ("link_3", "https://drive.google.com/file/d/CCC/view"),
   ("start_1", "00:00:01"), ("end_1", "00:00:05"),
   ("start_2", "00:00:01"), ("end_2", "00:00:05"),
   ("start_3", "00:00:01"), ("end_3", "00:00:05")]

/-- Adapter outcomes of the C2 evaluation: the BBB link fails after
exhausting retries (the cloud-drive adapter then returns the empty path
with fetched false, without raising), every other link succeeds. -/
def c2Env : JsonEnv :=
  ⟨fun _ url _ =>
    if pyIn "BBB" url then PyOutcome.ok ⟨"", false⟩
    else PyOutcome.ok ⟨"data/audio/00000000_1.mp3", true⟩⟩

/-- Claim C2 evaluated on the code at the claimed scenario: the JSON
orchestrator run aborts with a raised exception instead of producing an
entry with two audio elements, and every adapter invocation it issues
requests link_1 with audio index 1 (the source calls the fetch helper
without the audio_idx argument), so reference 2 and reference 3 are
never fetched from their own links.  The abort happens because the
helper result bound to audio_path is the whole (path, fetched) pair,
which is truthy even on failure and is then passed to crop_audio as a
path. -/
theorem C2_partial_failure_aborts :
    main_json c2Env [c2Row] = PyOutcome.raises PyError.typeErr
    ∧ (processRefsAux c2Env (rowSet c2Row "unique_id" (pad8 0))
        [1, 2, 3]).2.all
        (fun c => c.url == "https://drive.google.com/file/d/AAA/view"
          && c.audio_idx == 1) = true
    ∧ (processRefsAux c2Env (rowSet c2Row "unique_id" (pad8 0))
        [1, 2, 3]).2.length = 1 := by
  refine ⟨by decide, by decide, by decide⟩

/-! ## Lemmas on the generated identifiers -/

/-- Every entry of the JSON orchestrator output carries the zero-padded
position (counted from n) as its unique id. -/
theorem mainJsonAux_unique_id (env : JsonEnv) :
    ∀ (rows : List Row) (n k : Nat) (out : List (Row × List AudioItem))
      (ent : Row × List AudioItem),
    mainJsonAux env n rows = PyOutcome.ok out →
    out.get? k = some ent →
    rowGet ent.1 "unique_id" = some (pad8 (n + k)) := by
  intro rows
  induction rows with
  | nil =>
    intro n k out ent hm hg
    simp only [mainJsonAux] at hm
    cases hm
    simp at hg
  | cons row rest ih =>
    intro n k out ent hm hg
    simp only [mainJsonAux] at hm
    rcases hpr : processRefsAux env (rowSet row "unique_id" (pad8 n))
      [1, 2, 3] with ⟨res, cs⟩
    rw [hpr] at hm
    cases res with
    | raises e => exact absurd hm (by simp)
    | ok items =>
      cases hmr : mainJsonAux env (n + 1) rest with
      | raises e =>
        rw [hmr] at hm
        exact absurd hm (by simp)
      | ok out2 =>
        rw [hmr] at hm
        simp only at hm
        cases hm
        cases k with
        | zero =>
          simp only [List.get?] at hg
          cases hg
          rw [Nat.add_zero]
          exact rowGet_rowSet_self _ _ _
        | succ k =>
          simp only [List.get?] at hg
          have h := ih (n + 1) k out2 ent hmr hg
          rw [show n + 1 + k = n + (k + 1) by omega] at h
          exact h

/-- Every row of the CSV orchestrator after id assignment carries the
fresh id drawn for its position (counted from n). -/
theorem csvAssignIds_unique_id (env : CsvEnv) :
    ∀ (rows : List Row) (n k : Nat) (row : Row),
    (csvAssignIds env n rows).get? k = some row →
    rowGet row "unique_id" = some (csvFreshId env (n + k)) := by
  intro rows
  induction rows with
  | nil => intro n k row hg; simp [csvAssignIds] at hg
  | cons r rest ih =>
    intro n k row hg
    simp only [csvAssignIds] at hg
    cases k with
    | zero =>
      simp only [List.get?] at hg
      cases hg
      rw [Nat.add_zero]
      exact rowGet_rowSet_self _ _ _
    | succ k =>
      simp only [List.get?] at hg
      have h := ih (n + 1) k row hg
      rw [show n + 1 + k = n + (k + 1) by omega] at h
      exact h

/-- Claim C10: both orchestrators generate the identifier that keys the
destination paths, overwriting any unique_id already present in the
input record: the JSON orchestrator assigns the zero-padded position of
the entry in the input (eight characters for positions below 10^8), and
the CSV orchestrator assigns the first eight characters, uppercased, of
a per-row uuid4 hex draw of the run (eight characters, since a uuid4
hex string has 32); the destination file name is then built from that
identifier and the audio index. -/
theorem C10_generated_ids_key_paths :
    (∀ (row : Row) (idx : Nat),
      rowGet (rowSet row "unique_id" (pad8 idx)) "unique_id"
        = some (pad8 idx))
    ∧ (∀ (env : JsonEnv) (rows : List Row)
        (out : List (Row × List AudioItem)) (k : Nat)
        (ent : Row × List AudioItem),
      main_json env rows = PyOutcome.ok out → out.get? k = some ent →
      rowGet ent.1 "unique_id" = some (pad8 k))
    ∧ (∀ idx : Nat, (toString idx).data.length ≤ 8 →
        (pad8 idx).data.length = 8)
    ∧ (∀ (env : CsvEnv) (rows : List Row) (k : Nat) (row : Row),
      (csvAssignIds env 0 rows).get? k = some row →
      rowGet row "unique_id" = some (csvFreshId env k))
    ∧ (∀ (env : CsvEnv) (i : Nat), (env.uuid4hex i).data.length = 32 →
        (csvFreshId env i).data.length = 8)
    ∧ (∀ (dir oid fmt : String) (i : Nat), i ≠ 0 →
        joinPath dir (audioFileName oid (some i) fmt)
          = dir ++ "/" ++ (oid ++ "_" ++ toString i ++ "." ++ fmt)) := by
  refine ⟨?_, ?_, ?_, ?_, ?_, ?_⟩
  · intro row idx
    exact rowGet_rowSet_self _ _ _
  · intro env rows out k ent hm hg
    have h := mainJsonAux_unique_id env rows 0 k out ent hm hg
    rwa [Nat.zero_add] at h
  · intro idx h
    show (List.replicate (8 - (toString idx).data.length) '0'
      ++ (toString idx).data).length = 8
    rw [List.length_append, List.length_replicate]
    omega
  · intro env rows k row hg
    have h := csvAssignIds_unique_id env rows 0 k row hg
    rwa [Nat.zero_add] at h
  · intro env i h
    show ((((env.uuid4hex i).data.take 8).map Char.toUpper)).length = 8
    rw [List.length_map, List.length_take, h]
    decide
  · intro dir oid fmt i hi
    simp [joinPath, audioFileName, hi]

/-- Concrete CSV environment of the C10 witness. -/
def c10CsvEnv : CsvEnv :=
  ⟨fun _ => "0123456789abcdef0123456789abcdef",
   ⟨"", fun _ => false, fun _ => 0⟩, ⟨"", none, false⟩, "mp3", "d"⟩

/-- Claim C10 witness: a concrete pre-existing unique id is overwritten
by the position id in the JSON orchestrator, a one-entry JSON run keys
its entry by position 0, pad8 of a small position has eight characters,
and a concrete CSV row receives the uppercased 8-character prefix of
the uuid draw of a run. -/
theorem C10_generated_ids_key_paths_witness :
    rowGet (rowSet [("unique_id", "OLDVALUE")] "unique_id" (pad8 7))
      "unique_id" = some (pad8 7)
    ∧ rowGet (rowSet [("q", "r")] "unique_id" (pad8 0)) "unique_id"
      = some (pad8 0)
    ∧ (pad8 3).data.length = 8
    ∧ rowGet (rowSet [("x", "y")] "unique_id" (csvFreshId c10CsvEnv 0))
      "unique_id" = some (csvFreshId c10CsvEnv 0)
    ∧ (csvFreshId c10CsvEnv 0).data.length = 8 := by
  refine ⟨?_, ?_, ?_, ?_, ?_⟩
  · exact C10_generated_ids_key_paths.1 [("unique_id", "OLDVALUE")] 7
  · exact C10_generated_ids_key_paths.2.1
      ⟨fun _ _ _ => PyOutcome.raises PyError.keyErr⟩ [[("q", "r")]]
      [(rowSet [("q", "r")] "unique_id" (pad8 0), [])] 0
      (rowSet [("q", "r")] "unique_id" (pad8 0), []) (by decide) rfl
  · exact C10_generated_ids_key_paths.2.2.1 3 (by decide)
  · exact C10_generated_ids_key_paths.2.2.2.1 c10CsvEnv [[("x", "y")]] 0
      (rowSet [("x", "y")] "unique_id" (csvFreshId c10CsvEnv 0)) (by decide)
  · exact C10_generated_ids_key_paths.2.2.2.2.1 c10CsvEnv 0 (by decide)
